import Mathlib

/-!
Shallow embedding of the evaluation scoring library of the repository
(`eval/evaluation_utils.py`) and of the scenario-evaluation driver logic
embedded in `eval/test_recommendations.py` (`test_full_evaluation_suite`).

Python floats are modelled as exact rationals (`ℚ`); the cosine similarity,
which involves square roots, lives in `ℝ`.  Fallible Python code (code that
can raise) is modelled with `Option`/`Except`.
-/

/-- A character the Python regex class `\w` matches (ASCII fragment:
alphanumeric or underscore), as used by the patterns `#\w+` and the
TF-IDF token pattern. -/
def isWordChar (c : Char) : Bool := c.isAlphanum || c == '_'

/-- Maximal runs of characters satisfying `p`, in order.  `runsAux p l acc`
processes `l` with `acc` holding the current (reversed) run. -/
def runsAux (p : Char → Bool) : List Char → List Char → List (List Char)
  | [], acc => if acc.isEmpty then [] else [acc.reverse]
  | c :: cs, acc =>
    if p c then runsAux p cs (c :: acc)
    else if acc.isEmpty then runsAux p cs []
    else acc.reverse :: runsAux p cs []

/-- Maximal runs of characters satisfying `p`; with `p = not whitespace`
this is Python's `str.split()`. -/
def splitRuns (p : Char → Bool) (l : List Char) : List (List Char) :=
  runsAux p l []

/-- Python's `str.lower()` on the ASCII fragment. -/
def lowerList (l : List Char) : List Char := l.map Char.toLower

/-- Python's substring test `needle in hay`.  The empty needle is contained
in every string, as in Python. -/
def containsSubList (needle : List Char) : List Char → Bool
  | [] => needle.isEmpty
  | c :: cs => needle.isPrefixOf (c :: cs) || containsSubList needle cs

/-- Word count of a post: `len(post.split())` in the source
(`evaluation_utils.py` line 71). -/
def wordCount (post : String) : Nat :=
  (splitRuns (fun c => !c.isWhitespace) post.data).length

/-- `length_ok` of `evaluate_social_post`: word count between 50 and 280
inclusive (`evaluation_utils.py` line 71). -/
def lengthOk (post : String) : Bool :=
  50 ≤ wordCount post && wordCount post ≤ 280

/-- `has_hashtag` of `evaluate_social_post`: the regex `#\w+` finds a match,
i.e. some `#` is immediately followed by a word character
(`evaluation_utils.py` line 72). -/
def hasHashtag : List Char → Bool
  | [] => false
  | '#' :: c :: cs => isWordChar c || hasHashtag (c :: cs)
  | _ :: cs => hasHashtag cs

/-- A character in the emoji ranges of the regex on `evaluation_utils.py`
line 73: `U+1F300`–`U+1F9FF` or `U+1F600`–`U+1F64F`. -/
def isEmojiChar (c : Char) : Bool :=
  (0x1F300 ≤ c.toNat && c.toNat ≤ 0x1F9FF) || (0x1F600 ≤ c.toNat && c.toNat ≤ 0x1F64F)

/-- `has_emoji` of `evaluate_social_post` (`evaluation_utils.py` line 73). -/
def hasEmoji (l : List Char) : Bool := l.any isEmojiChar

/-- `keyword_score` of `evaluate_social_post` for a non-empty keyword list:
fraction of keywords that occur in the post as a case-insensitive substring
(`evaluation_utils.py` line 74). -/
def keywordCoverage (post : String) (kws : List String) : ℚ :=
  (kws.countP (fun kw => containsSubList (lowerList kw.data) (lowerList post.data)) : ℚ) /
    (kws.length : ℚ)

/-- The result record of `evaluate_social_post`. -/
structure PostEval where
  quality : ℚ
  keyword_coverage : ℚ
deriving DecidableEq, Repr

/-- `evaluate_social_post` (`evaluation_utils.py` lines 70–82).  The division
by `len(expected_keywords)` is unguarded in the source, so the empty keyword
list raises `ZeroDivisionError`, modelled as `none`. -/
def evaluate_social_post (post : String) (expected_keywords : List String) :
    Option PostEval :=
  if expected_keywords.isEmpty then none
  else
    let keyword_score := keywordCoverage post expected_keywords
    some
      { quality :=
          0.3 * keyword_score +
          0.3 * (if lengthOk post then 1 else 0) +
          0.2 * (if hasHashtag post.data then 1 else 0) +
          0.2 * (if hasEmoji post.data then 1 else 0)
        keyword_coverage := keyword_score }

/-- The weighted-sum shape of the quality score, with the keyword-coverage
fraction abstracted, used to state monotonicity in the coverage. -/
def qualityFormula (cov : ℚ) (lenOk tag emo : Bool) : ℚ :=
  0.3 * cov +
  0.3 * (if lenOk then 1 else 0) +
  0.2 * (if tag then 1 else 0) +
  0.2 * (if emo then 1 else 0)

/-- The tokenization performed by sklearn's `TfidfVectorizer` with
`lowercase=True` and `stop_words='english'` (`evaluation_utils.py` line 56):
lowercase the text, take maximal runs of word characters of length at least 2
(the default token pattern), and drop the stop words.  The concrete English
stop-word list lives inside the external sklearn library and is abstracted as
the parameter `stopWords`. -/
def tokenize (stopWords : List String) (s : String) : List String :=
  (((splitRuns isWordChar (lowerList s.data)).filter
      (fun r => 2 ≤ r.length)).map String.mk).filter
    (fun t => !stopWords.contains t)

/-- Number of occurrences of term `t` in a token list: the term frequency. -/
def termCount (tokens : List String) (t : String) : ℕ := tokens.count t

/-- Dot product of the term-count vectors of two token lists over a shared
vocabulary.  For the two-document corpus `[A, A]` every term appears in both
documents, so sklearn's smoothed inverse document frequency is exactly 1 and
the TF-IDF vectors are the L2-normalized term-count vectors; cosine similarity
is therefore fully determined by these dot products. -/
def dotQ (xs ys : List String) (vocab : List String) : ℚ :=
  (vocab.map (fun t => (termCount xs t : ℚ) * (termCount ys t : ℚ))).sum

/-- `cosine_text_similarity` (`evaluation_utils.py` lines 55–61): TF-IDF
vectorize the two texts over the two-document corpus and return the cosine of
the two vectors.  An empty vocabulary makes `fit_transform` raise, which the
bare `except` turns into `0.0`; a zero vector likewise yields cosine 0 (in
Lean, division by zero is 0, matching sklearn's handling of zero rows). -/
noncomputable def cosine_text_similarity (stopWords : List String)
    (text1 text2 : String) : ℝ :=
  let xs := tokenize stopWords text1
  let ys := tokenize stopWords text2
  let vocab := (xs ++ ys).dedup
  if vocab.isEmpty then 0
  else ((dotQ xs ys vocab : ℚ) : ℝ) /
    (Real.sqrt ((dotQ xs xs vocab : ℚ) : ℝ) * Real.sqrt ((dotQ ys ys vocab : ℚ) : ℝ))

/-- `regex_match_score` (`evaluation_utils.py` lines 63–68), parameterized by
the matcher `search` standing for the external `re.search(pattern, text,
re.IGNORECASE)`: the count of patterns that match, divided by
`max(len(patterns), 1)`. -/
def regex_match_score (search : String → String → Bool) (text : String)
    (patterns : List String) : ℚ :=
  (patterns.countP (fun p => search p text) : ℚ) / ((max patterns.length 1 : ℕ) : ℚ)

/-- Split a character list on a separator, keeping empty parts (so the empty
list yields one empty part, as Python's split does). -/
def splitOnChar (sep : Char) : List Char → List (List Char)
  | [] => [[]]
  | c :: cs =>
    if c == sep then [] :: splitOnChar sep cs
    else
      match splitOnChar sep cs with
      | [] => [[c]]
      | h :: t => (c :: h) :: t

/-- Models Python's `re.search(pattern, text, re.IGNORECASE)` for the fragment
of patterns the driver and the golden dataset use: `|`-alternations of literal
strings.  Such a pattern matches iff some branch occurs in the text as a
case-insensitive substring; the empty pattern (a single empty branch) matches
every text, as `re.search("", t)` always matches at position 0. -/
def reSearchLit (pattern text : String) : Bool :=
  (splitOnChar '|' pattern.data).any
    (fun branch => containsSubList (lowerList branch) (lowerList text.data))

/-- The `EvaluationResult` dataclass (`evaluation_utils.py` lines 9–18). -/
structure EvaluationResult where
  scenario : String
  relevance_score : ℚ
  personalization_score : ℚ
  trend_alignment : ℚ
  event_coverage : ℚ
  post_quality_avg : ℚ
  overall_score : ℚ
  passed : Bool
deriving DecidableEq, Repr

/-- The driver's weighted overall score (`test_recommendations.py`
lines 71–77). -/
def overallScore (rel pers trend event postq : ℚ) : ℚ :=
  0.25 * rel + 0.20 * pers + 0.15 * trend + 0.15 * event + 0.25 * postq

/-- Models Python's `round(x, 3)` as exact decimal rounding of a rational to
3 places, ties to even (Python's banker's rounding). -/
def round3 (q : ℚ) : ℚ :=
  let f : ℤ := ⌊q * 1000⌋
  let r : ℚ := q * 1000 - f
  ((if r < 1/2 then f
    else if 1/2 < r then f + 1
    else if f % 2 = 0 then f else f + 1 : ℤ) : ℚ) / 1000

/-- The driver's construction of one `EvaluationResult`
(`test_recommendations.py` lines 79–90): `passed` is computed from the
unrounded overall score, while every stored score is rounded to 3 decimal
places. -/
def mkEvaluationResult (scenario : String) (rel pers trend event postq : ℚ) :
    EvaluationResult :=
  let overall := overallScore rel pers trend event postq
  { scenario := scenario
    relevance_score := round3 rel
    personalization_score := round3 pers
    trend_alignment := round3 trend
    event_coverage := round3 event
    post_quality_avg := round3 postq
    overall_score := round3 overall
    passed := decide (overall ≥ 0.75) }

/-- The summary dictionary returned by `compute_overall_score`. -/
structure EvalSummary where
  total_scenarios : ℕ
  pass_rate : ℚ
  avg_overall_score : ℚ
  best_scenario : String
  worst_scenario : String
deriving DecidableEq, Repr

/-- `df.loc[df.idxmax(), "scenario"]` over the overall scores: the scenario of
the first result attaining the maximal overall score (pandas `idxmax` keeps
the first occurrence on ties); `"N/A"` on the empty list, mirroring the
source's guard. -/
def bestScenario : List EvaluationResult → String
  | [] => "N/A"
  | r :: rs =>
    (rs.foldl (fun b x => if x.overall_score > b.overall_score then x else b) r).scenario

/-- Like `bestScenario` with `idxmin`: first result attaining the minimal
overall score. -/
def worstScenario : List EvaluationResult → String
  | [] => "N/A"
  | r :: rs =>
    (rs.foldl (fun b x => if x.overall_score < b.overall_score then x else b) r).scenario

/-- `compute_overall_score` (`evaluation_utils.py` lines 84–97).  On the empty
result list `pd.DataFrame([])` has no columns at all, so the column access
`df["passed"]` raises `KeyError` before the guarded `"N/A"` branches are
reached; this is modelled as the `Except.error` case.  For non-empty input,
`df["passed"].mean()` over booleans is the mean of 0/1 indicators and
`df["overall"].mean()` the mean of the overall scores. -/
def compute_overall_score (results : List EvaluationResult) :
    Except String EvalSummary :=
  if results.isEmpty then .error "KeyError: passed"
  else
    .ok
      { total_scenarios := results.length
        pass_rate :=
          ((results.map (fun r => if r.passed then (1 : ℚ) else 0)).sum) /
            (results.length : ℚ)
        avg_overall_score := ((results.map (·.overall_score)).sum) / (results.length : ℚ)
        best_scenario := bestScenario results
        worst_scenario := worstScenario results }

/-- Unfolding lemma: on a non-empty keyword list `evaluate_social_post`
returns the weighted-sum quality together with the keyword coverage. -/
theorem evaluate_social_post_some (post : String) (kws : List String) (h : kws ≠ []) :
    evaluate_social_post post kws =
      some ⟨qualityFormula (keywordCoverage post kws) (lengthOk post)
              (hasHashtag post.data) (hasEmoji post.data),
            keywordCoverage post kws⟩ := by
  simp [evaluate_social_post, qualityFormula, List.isEmpty_iff, h]

example : wordCount "Unwrap festive scents this Christmas! 20% off perfume bundles for her. #HolidayGifts" = 12 := by decide
example : lengthOk "a b c" = false := by decide
example : hasHashtag "hello #World".data = true := by decide
example : hasEmoji "party 🎉".data = true := by decide
example : evaluate_social_post "hi" ["hi"] = some ⟨3/10, 1⟩ := by
  rw [evaluate_social_post_some _ _ (by decide)]
  have hc : keywordCoverage "hi" ["hi"] = 1 := by
    have h1 : List.countP
        (fun kw => containsSubList (lowerList kw.data) (lowerList "hi".data)) ["hi"] = 1 := by
      decide
    unfold keywordCoverage; rw [h1]; norm_num
  have hl : lengthOk "hi" = false := by decide
  have hh : hasHashtag "hi".data = false := by decide
  have he : hasEmoji "hi".data = false := by decide
  rw [hc, hl, hh, he]
  simp [qualityFormula]
  norm_num

/-! ## Helper lemmas -/

/-- The empty needle is a substring of every character list. -/
theorem containsSubList_nil (l : List Char) : containsSubList [] l = true := by
  cases l <;> simp [containsSubList, List.isPrefixOf]

/-- The empty regex pattern matches every text. -/
theorem reSearchLit_empty (t : String) : reSearchLit "" t = true := by
  simp [reSearchLit, splitOnChar, lowerList, containsSubList_nil]

/-- Keyword coverage is nonnegative. -/
theorem keywordCoverage_nonneg (post : String) (kws : List String) :
    0 ≤ keywordCoverage post kws :=
  div_nonneg (Nat.cast_nonneg _) (Nat.cast_nonneg _)

/-- Keyword coverage of a non-empty keyword list is at most 1. -/
theorem keywordCoverage_le_one (post : String) (kws : List String) (h : kws ≠ []) :
    keywordCoverage post kws ≤ 1 := by
  unfold keywordCoverage
  have hlen : 0 < (kws.length : ℚ) := by
    have := List.length_pos.mpr h
    exact_mod_cast this
  rw [div_le_one hlen]
  exact_mod_cast List.countP_le_length _

/-- The weighted quality sum is monotone in the coverage fraction when the
three boolean sub-checks are held fixed. -/
theorem qualityFormula_mono (c c' : ℚ) (lenOk tag emo : Bool) (h : c ≤ c') :
    qualityFormula c lenOk tag emo ≤ qualityFormula c' lenOk tag emo := by
  unfold qualityFormula
  have : (0.3 : ℚ) * c ≤ 0.3 * c' := by linarith
  linarith

/-- The weighted quality sum stays in the unit interval when the coverage
fraction does. -/
theorem qualityFormula_bounds (c : ℚ) (lenOk tag emo : Bool)
    (h0 : 0 ≤ c) (h1 : c ≤ 1) :
    0 ≤ qualityFormula c lenOk tag emo ∧ qualityFormula c lenOk tag emo ≤ 1 := by
  cases lenOk <;> cases tag <;> cases emo <;>
    simp only [qualityFormula, if_true, if_false] <;> norm_num <;> constructor <;> linarith

/-! ## Claims -/

/-- C1: the driver's overall score is the weighted sum
0.25·relevance + 0.20·personalization + 0.15·trendAlignment +
0.15·eventCoverage + 0.25·postQualityAvg, and the passed flag is true iff the
overall score is at least 0.75, inclusively: an overall score of exactly 0.75
passes. -/
theorem overall_weighted_sum_inclusive_threshold (s : String)
    (rel pers trend event postq : ℚ) :
    overallScore rel pers trend event postq =
      0.25 * rel + 0.20 * pers + 0.15 * trend + 0.15 * event + 0.25 * postq
    ∧ ((mkEvaluationResult s rel pers trend event postq).passed = true ↔
        overallScore rel pers trend event postq ≥ 0.75)
    ∧ (mkEvaluationResult s 0.75 0.75 0.75 0.75 0.75).passed = true := by
  refine ⟨rfl, ?_, ?_⟩
  · simp [mkEvaluationResult]
  · simp only [mkEvaluationResult, decide_eq_true_iff]
    norm_num [overallScore]

/-- C8: with an empty expected-keyword list, the division by the keyword-list
length in evaluate_social_post is unguarded and raises ZeroDivisionError
(modelled as none), so the function is not total over its interface. -/
theorem evaluate_social_post_empty_keywords (post : String) :
    evaluate_social_post post [] = none := rfl

/-- C6 (divergence witness): on the empty result list, compute_overall_score
does not reach its guarded `N/A` branches: `pd.DataFrame` built from an empty
list has no columns, so the column access `df["passed"]` raises KeyError,
modelled as the error case. -/
theorem compute_overall_score_empty_raises :
    compute_overall_score [] = .error "KeyError: passed" := rfl

/-- C4: regex_match_score lies in the unit interval, equals the fraction of
patterns that match for a non-empty pattern list, and is 0 on the empty
pattern list (no division by zero: the denominator is clamped to 1). -/
theorem regex_match_score_spec (search : String → String → Bool) (text : String)
    (patterns : List String) :
    0 ≤ regex_match_score search text patterns
    ∧ regex_match_score search text patterns ≤ 1
    ∧ (patterns ≠ [] → regex_match_score search text patterns =
        (patterns.countP (fun p => search p text) : ℚ) / (patterns.length : ℚ))
    ∧ regex_match_score search text [] = 0 := by
  refine ⟨div_nonneg (Nat.cast_nonneg _) (Nat.cast_nonneg _), ?_, ?_, ?_⟩
  · unfold regex_match_score
    have hpos : 0 < ((max patterns.length 1 : ℕ) : ℚ) := by
      have : 0 < max patterns.length 1 := lt_max_of_lt_right one_pos
      exact_mod_cast this
    rw [div_le_one hpos]
    have hle : patterns.countP (fun p => search p text) ≤ max patterns.length 1 :=
      le_trans (List.countP_le_length _) (le_max_left _ _)
    exact_mod_cast hle
  · intro h
    unfold regex_match_score
    have : max patterns.length 1 = patterns.length :=
      max_eq_left (List.length_pos.mpr h)
    rw [this]
  · simp [regex_match_score]

/-- C9: an empty-string pattern always matches, so regex_match_score of the
single empty pattern is 1; consequently the driver's personalization score for
a scenario whose expected criteria omit age_group and gender (both defaulted
to the empty pattern) is at least 2/3 on any text, whatever the market
pattern. -/
theorem empty_pattern_always_matches (t market : String) :
    regex_match_score reSearchLit t [""] = 1
    ∧ 2/3 ≤ regex_match_score reSearchLit t ["", "", market] := by
  constructor
  · simp [regex_match_score, List.countP_cons, reSearchLit_empty]
  · cases h : reSearchLit market t <;>
      simp [regex_match_score, List.countP_cons, reSearchLit_empty, h]
    norm_num

/-- The pandas boolean-column mean's numerator: the sum of 0/1 indicators of
the passed flags equals the count of passed results. -/
theorem sum_passed_indicator_eq_countP (rs : List EvaluationResult) :
    (rs.map (fun r => if r.passed then (1 : ℚ) else 0)).sum =
      (rs.countP (fun r => r.passed) : ℚ) := by
  induction rs with
  | nil => simp
  | cons r rs ih =>
    by_cases h : r.passed <;> simp [List.countP_cons, h, ih]
    ring

/-- C5: for a non-empty result list, compute_overall_score succeeds and its
pass_rate is the number of passed results divided by the number of results. -/
theorem pass_rate_eq_fraction_passed (rs : List EvaluationResult) (h : rs ≠ []) :
    ∃ s, compute_overall_score rs = .ok s ∧
      s.pass_rate = (rs.countP (fun r => r.passed) : ℚ) / (rs.length : ℚ) := by
  have hne : rs.isEmpty = false := by simp [List.isEmpty_iff, h]
  unfold compute_overall_score
  rw [hne]
  exact ⟨_, rfl, by simp [sum_passed_indicator_eq_countP]⟩

/-- Concrete passing result used by witnesses. -/
def sampleResultA : EvaluationResult :=
  ⟨"scenario a", 0.9, 0.8, 0.7, 0.6, 0.9, 0.8, true⟩

/-- Concrete failing result used by witnesses. -/
def sampleResultB : EvaluationResult :=
  ⟨"scenario b", 0.1, 0.2, 0.3, 0.4, 0.1, 0.2, false⟩

/-- Witness for C5 at a concrete two-element result list. -/
theorem pass_rate_eq_fraction_passed_witness :
    ([sampleResultA, sampleResultB] ≠ []) ∧
    ∃ s, compute_overall_score [sampleResultA, sampleResultB] = .ok s ∧
      s.pass_rate =
        (List.countP (fun r => r.passed) [sampleResultA, sampleResultB] : ℚ) /
          ((List.length [sampleResultA, sampleResultB] : ℕ) : ℚ) :=
  ⟨by simp, pass_rate_eq_fraction_passed [sampleResultA, sampleResultB] (by simp)⟩

/-- C2: on a non-empty keyword list, evaluate_social_post returns the weighted
sum 0.3·keywordCoverage + 0.3·length + 0.2·hashtag + 0.2·emoji together with
the coverage fraction; the quality lies in the unit interval and the weighted
sum is monotone non-decreasing in the coverage fraction with the three boolean
sub-checks held fixed. -/
theorem evaluate_social_post_spec (post : String) (kws : List String) (h : kws ≠ []) :
    ∃ res, evaluate_social_post post kws = some res
      ∧ res.quality = qualityFormula (keywordCoverage post kws) (lengthOk post)
          (hasHashtag post.data) (hasEmoji post.data)
      ∧ res.keyword_coverage = keywordCoverage post kws
      ∧ 0 ≤ res.quality ∧ res.quality ≤ 1
      ∧ (∀ c c' (lenOk tag emo : Bool), c ≤ c' →
          qualityFormula c lenOk tag emo ≤ qualityFormula c' lenOk tag emo) := by
  obtain ⟨hb0, hb1⟩ :=
    qualityFormula_bounds (keywordCoverage post kws) (lengthOk post)
      (hasHashtag post.data) (hasEmoji post.data)
      (keywordCoverage_nonneg post kws) (keywordCoverage_le_one post kws h)
  exact ⟨_, evaluate_social_post_some post kws h, rfl, rfl, hb0, hb1,
    fun c c' lenOk tag emo hcc => qualityFormula_mono c c' lenOk tag emo hcc⟩

/-- Witness for C2 at a concrete post and keyword list. -/
theorem evaluate_social_post_spec_witness :
    (["hi"] : List String) ≠ [] ∧
    ∃ res, evaluate_social_post "hi #x" ["hi"] = some res
      ∧ res.quality = qualityFormula (keywordCoverage "hi #x" ["hi"]) (lengthOk "hi #x")
          (hasHashtag "hi #x".data) (hasEmoji "hi #x".data)
      ∧ res.keyword_coverage = keywordCoverage "hi #x" ["hi"]
      ∧ 0 ≤ res.quality ∧ res.quality ≤ 1
      ∧ (∀ c c' (lenOk tag emo : Bool), c ≤ c' →
          qualityFormula c lenOk tag emo ≤ qualityFormula c' lenOk tag emo) :=
  ⟨by simp, evaluate_social_post_spec "hi #x" ["hi"] (by simp)⟩

/-- C10: the driver stores every component and the overall score rounded to 3
decimal places while the passed flag is computed from the unrounded overall
score, so a serialized record can show overall_score = 0.75 together with
passed = false (unrounded overall 0.7496 rounds up to 0.75 but is below the
threshold). -/
theorem passed_from_unrounded_overall (s : String) (rel pers trend event postq : ℚ) :
    (mkEvaluationResult s rel pers trend event postq).relevance_score = round3 rel
    ∧ (mkEvaluationResult s rel pers trend event postq).post_quality_avg = round3 postq
    ∧ (mkEvaluationResult s rel pers trend event postq).overall_score =
        round3 (overallScore rel pers trend event postq)
    ∧ (mkEvaluationResult s rel pers trend event postq).passed =
        decide (overallScore rel pers trend event postq ≥ 0.75)
    ∧ (mkEvaluationResult "s" 0.7496 0.7496 0.7496 0.7496 0.7496).overall_score = 0.75
    ∧ (mkEvaluationResult "s" 0.7496 0.7496 0.7496 0.7496 0.7496).passed = false := by
  refine ⟨rfl, rfl, rfl, rfl, ?_, ?_⟩
  · show round3 (overallScore 0.7496 0.7496 0.7496 0.7496 0.7496) = 0.75
    have ho : overallScore 0.7496 0.7496 0.7496 0.7496 0.7496 = 7496 / 10000 := by
      norm_num [overallScore]
    rw [ho]
    have hf : ⌊(7496 : ℚ) / 10000 * 1000⌋ = 749 := by norm_num
    unfold round3
    rw [hf]
    norm_num
  · show decide (overallScore 0.7496 0.7496 0.7496 0.7496 0.7496 ≥ 0.75) = false
    rw [decide_eq_false_iff_not]
    norm_num [overallScore]

/-- The concrete Christmas post of the spec scenario. -/
def xmasPost : String :=
  "Unwrap festive scents this Christmas! 20% off perfume bundles for her. #HolidayGifts"

/-- A short post holding full keyword, hashtag and emoji credit. -/
def fullCreditPost : String := "perfume discount bundle gift holiday #sale 🎉"

/-- The expected keywords of the spec scenario. -/
def xmasKeywords : List String := ["perfume", "discount", "bundle", "gift", "holiday"]

/-- C3 counterexample: a post whose length check fails but which earns full
keyword, hashtag and emoji credit has quality exactly 0.7, which is not
strictly below 0.7. -/
theorem quality_strictly_below_refuted :
    lengthOk fullCreditPost = false
    ∧ evaluate_social_post fullCreditPost xmasKeywords = some ⟨7/10, 1⟩
    ∧ ¬ ((7 : ℚ) / 10 < 7 / 10) := by
  refine ⟨by decide, ?_, by norm_num⟩
  rw [evaluate_social_post_some _ _ (by decide)]
  have hcount : List.countP
      (fun kw => containsSubList (lowerList kw.data) (lowerList fullCreditPost.data))
      xmasKeywords = 5 := by decide
  have hc : keywordCoverage fullCreditPost xmasKeywords = 1 := by
    unfold keywordCoverage
    rw [hcount]
    norm_num [xmasKeywords]
  have hl : lengthOk fullCreditPost = false := by decide
  have hh : hasHashtag fullCreditPost.data = true := by decide
  have he : hasEmoji fullCreditPost.data = true := by decide
  rw [hc, hl, hh, he]
  simp only [qualityFormula, if_true, if_false]
  norm_num

/-- C3 as amended: the Christmas post of the spec scenario fails the length
check, and any post failing the length check has quality at most 0.7 — the
bound is attained, not strict, under full keyword, hashtag and emoji
credit. -/
theorem quality_capped_at_seven_tenths :
    lengthOk xmasPost = false
    ∧ ∀ post kws res, evaluate_social_post post kws = some res →
        lengthOk post = false → res.quality ≤ 7/10 := by
  refine ⟨by decide, ?_⟩
  intro post kws res hsome hlen
  by_cases hk : kws.isEmpty
  · simp [evaluate_social_post, hk] at hsome
  · have hkne : kws ≠ [] := by simpa [List.isEmpty_iff] using hk
    rw [evaluate_social_post_some post kws hkne] at hsome
    obtain rfl := (Option.some.injEq _ _).mp hsome
    have hc1 : keywordCoverage post kws ≤ 1 := keywordCoverage_le_one post kws hkne
    show qualityFormula (keywordCoverage post kws) (lengthOk post)
        (hasHashtag post.data) (hasEmoji post.data) ≤ 7/10
    rw [hlen]
    cases hasHashtag post.data <;> cases hasEmoji post.data <;>
      simp only [qualityFormula, if_true, if_false] <;> norm_num <;> linarith

/-- Witness for the amended C3 at a concrete post with a failing length
check. -/
theorem quality_capped_at_seven_tenths_witness :
    ((⟨3/10, 1⟩ : PostEval)).quality ≤ 7/10 :=
  quality_capped_at_seven_tenths.2 "hi" ["hi"] ⟨3/10, 1⟩
    (by
      rw [evaluate_social_post_some _ _ (by decide)]
      have hcount : List.countP
          (fun kw => containsSubList (lowerList kw.data) (lowerList "hi".data))
          ["hi"] = 1 := by decide
      have hc : keywordCoverage "hi" ["hi"] = 1 := by
        unfold keywordCoverage
        rw [hcount]
        norm_num
      have hl : lengthOk "hi" = false := by decide
      have hh : hasHashtag "hi".data = false := by decide
      have he : hasEmoji "hi".data = false := by decide
      rw [hc, hl, hh, he]
      simp only [qualityFormula, if_true, if_false]
      norm_num)
    (by decide)

/-- C7: for any stop-word list and any text whose tokenization is non-empty
(so TF-IDF vectorization succeeds), the cosine similarity of the text with
itself is exactly 1. -/
theorem cosine_similarity_self_eq_one (stopWords : List String) (t : String)
    (h : tokenize stopWords t ≠ []) :
    cosine_text_similarity stopWords t t = 1 := by
  obtain ⟨a, ha⟩ := List.exists_mem_of_ne_nil _ h
  have hav : a ∈ (tokenize stopWords t ++ tokenize stopWords t).dedup :=
    List.mem_dedup.mpr (List.mem_append.mpr (Or.inl ha))
  have hvne : (tokenize stopWords t ++ tokenize stopWords t).dedup ≠ [] :=
    List.ne_nil_of_mem hav
  have hvempty : ((tokenize stopWords t ++ tokenize stopWords t).dedup).isEmpty = false := by
    simp [List.isEmpty_iff, hvne]
  have hcount : 1 ≤ termCount (tokenize stopWords t) a := by
    unfold termCount
    exact List.count_pos_iff.mpr ha
  have hmem : ((termCount (tokenize stopWords t) a : ℚ) * (termCount (tokenize stopWords t) a : ℚ))
      ∈ ((tokenize stopWords t ++ tokenize stopWords t).dedup).map
        (fun x => (termCount (tokenize stopWords t) x : ℚ) * (termCount (tokenize stopWords t) x : ℚ)) :=
    List.mem_map_of_mem _ hav
  have hall : ∀ x ∈ ((tokenize stopWords t ++ tokenize stopWords t).dedup).map
        (fun x => (termCount (tokenize stopWords t) x : ℚ) * (termCount (tokenize stopWords t) x : ℚ)),
      0 ≤ x := by
    intro x hx
    obtain ⟨y, _, rfl⟩ := List.mem_map.mp hx
    positivity
  have hsum := List.single_le_sum hall _ hmem
  have h1 : (1 : ℚ) ≤ (termCount (tokenize stopWords t) a : ℚ) := by exact_mod_cast hcount
  have hpos : 0 < dotQ (tokenize stopWords t) (tokenize stopWords t)
      ((tokenize stopWords t ++ tokenize stopWords t).dedup) := by
    unfold dotQ
    nlinarith [hsum]
  have hposR : (0 : ℝ) < ((dotQ (tokenize stopWords t) (tokenize stopWords t)
      ((tokenize stopWords t ++ tokenize stopWords t).dedup) : ℚ) : ℝ) := by
    exact_mod_cast hpos
  simp only [cosine_text_similarity, hvempty, Bool.false_eq_true, if_false]
  rw [Real.mul_self_sqrt hposR.le, div_self (ne_of_gt hposR)]

/-- Witness for C7 at a concrete stop-word list and text. -/
theorem cosine_similarity_self_eq_one_witness :
    tokenize ["the"] "the perfume gift" ≠ [] ∧
    cosine_text_similarity ["the"] "the perfume gift" "the perfume gift" = 1 :=
  ⟨by decide, cosine_similarity_self_eq_one ["the"] "the perfume gift" (by decide)⟩

/-- Witness for C4 at a concrete matcher, text and pattern list. -/
theorem regex_match_score_spec_witness :
    (["ab", "zz"] : List String) ≠ [] ∧
    regex_match_score reSearchLit "xaby" ["ab", "zz"] =
      (List.countP (fun p => reSearchLit p "xaby") ["ab", "zz"] : ℚ) /
        (((["ab", "zz"] : List String).length : ℕ) : ℚ) :=
  ⟨by simp, (regex_match_score_spec reSearchLit "xaby" ["ab", "zz"]).2.2.1 (by simp)⟩
